import Mathlib

/-!
Shallow embedding of the voicebot real-time audio engine
(`geminiLiveService.ts`, wired to the `App` component's callbacks, in
particular `handleTurnComplete`, which calls `muteMic` and resets the UI).

Modelling conventions:
* wall-clock times from `Date.now()` are integers (milliseconds);
* audio-context clock times, durations and RMS values are rationals;
* the nullable resource handles (`sessionPromise`, `mediaStream`,
  `outputAudioContext`/`outputNode`, the processor with its registered
  `onaudioprocess` callback) become booleans recording whether the
  resource is currently held;
* callback invocations become an `Event` trace; the synchronous effect of
  the wired `onTurnComplete` callback (`handleTurnComplete` → `muteMic`)
  is applied to the service state at each call site, exactly as the
  JavaScript call would be.
-/

namespace Voicebot

/-- Connection states, from `types.ts`. -/
inductive ConnectionState
  | DISCONNECTED
  | CONNECTING
  | CONNECTED
  | ERROR
deriving DecidableEq

/-- RMS threshold for silence (`SILENCE_THRESHOLD = 0.01`). -/
def SILENCE_THRESHOLD : ℚ := 1 / 100

/-- Time in ms of silence before ending the turn (`SILENCE_DURATION_MS = 2500`). -/
def SILENCE_DURATION_MS : ℤ := 2500

/-- The mutable fields of `GeminiLiveService`, with resource handles as booleans. -/
structure ServiceState where
  sessionOpen : Bool
  micAcquired : Bool
  playbackReady : Bool
  captureSession : Bool
  nextStartTime : ℚ
  activeSources : List ℕ
  isMicMuted : Bool
  lastSpeechTime : ℤ
  hasSpokenSinceLastTurn : Bool

/-- Observable callback invocations made by the service. -/
inductive Event
  | stateChange (cs : ConnectionState)
  | volumeUpdate (v : ℚ)
  | errorMsg (m : String)
  | transcript (text : String) (isUser : Bool) (isFinal : Bool)
  | turnComplete
  | send (rms : ℚ) (now : ℤ)
  | startChunk (id : ℕ) (t : ℚ)
  | log (m : String)
deriving DecidableEq

/-- `muteMic()`: sets the mute flag and clears `hasSpokenSinceLastTurn`. -/
def muteMic (s : ServiceState) : ServiceState :=
  { s with isMicMuted := true, hasSpokenSinceLastTurn := false }

/-- `unmuteMic()`: clears the mute flag, stamps `lastSpeechTime`, clears the spoken flag. -/
def unmuteMic (s : ServiceState) (now : ℤ) : ServiceState :=
  { s with isMicMuted := false, lastSpeechTime := now, hasSpokenSinceLastTurn := false }

/-- The synchronous session-local reset performed at the top of `connect()`,
before any resource is acquired. -/
def connectReset (s : ServiceState) (now : ℤ) : ServiceState :=
  { s with nextStartTime := 0, isMicMuted := false, lastSpeechTime := now,
           hasSpokenSinceLastTurn := false }

/-- `disconnect()`: closes the session, tears down capture, stops and clears all
active playback sources, closes both audio contexts, and notifies `DISCONNECTED`. -/
def disconnect (s : ServiceState) : ServiceState × List Event :=
  ({ s with sessionOpen := false, captureSession := false, activeSources := [],
            micAcquired := false, playbackReady := false },
   [Event.stateChange ConnectionState.DISCONNECTED])

/-- `connect()`: notifies `CONNECTING`, resets the session-local state, then
acquires the audio contexts and the microphone. `micOk` records whether
`getUserMedia` succeeds; on failure the catch block reports the error,
notifies `ERROR` and calls `disconnect()`. -/
def connect (s : ServiceState) (now : ℤ) (micOk : Bool) : ServiceState × List Event :=
  let s1 := connectReset s now
  if micOk then
    ({ s1 with playbackReady := true, micAcquired := true, sessionOpen := true },
     [Event.stateChange ConnectionState.CONNECTING])
  else
    let s2 := { s1 with playbackReady := true, micAcquired := false }
    let r := disconnect s2
    (r.1, Event.stateChange ConnectionState.CONNECTING ::
          Event.errorMsg "Failed to connect to microphone or API." ::
          Event.stateChange ConnectionState.ERROR :: r.2)

/-- `startAudioStreaming()`: returns early unless the input context and the
media stream exist; otherwise registers the `onaudioprocess` callback
(the capture session). -/
def startAudioStreaming (s : ServiceState) : ServiceState :=
  if s.micAcquired then { s with captureSession := true } else s

/-- `handleOpen`: notifies `CONNECTED` and starts audio streaming. -/
def handleOpen (s : ServiceState) : ServiceState × List Event :=
  (startAudioStreaming s, [Event.stateChange ConnectionState.CONNECTED])

/-- The `onaudioprocess` callback for one captured block, given the block's
RMS and the current `Date.now()`. When muted it reports volume 0 and
returns. Otherwise it reports the RMS, runs the silence-detection logic
(the wired `onTurnComplete` callback calls `muteMic`, and processing of the
block stops), and finally sends the encoded block when a session exists. -/
def onAudioProcess (s : ServiceState) (rms : ℚ) (now : ℤ) : ServiceState × List Event :=
  if s.isMicMuted then
    (s, [Event.volumeUpdate 0])
  else
    let sendEvs : List Event := if s.sessionOpen then [Event.send rms now] else []
    if SILENCE_THRESHOLD < rms then
      ({ s with lastSpeechTime := now, hasSpokenSinceLastTurn := true },
       Event.volumeUpdate rms :: sendEvs)
    else
      if s.hasSpokenSinceLastTurn = true ∧ SILENCE_DURATION_MS < now - s.lastSpeechTime then
        (muteMic s, [Event.volumeUpdate rms, Event.turnComplete])
      else
        (s, Event.volumeUpdate rms :: sendEvs)

/-- One inbound audio chunk: a handle id and, when base64 decoding and
`decodeAudioData` succeed, the decoded buffer's duration. -/
structure AudioChunk where
  id : ℕ
  decoded : Option ℚ

/-- The fields of a `LiveServerMessage` that `handleMessage` inspects. -/
structure LiveServerMessage where
  inputTranscription : Option String
  outputTranscription : Option String
  turnComplete : Bool
  audioData : Option AudioChunk
  interrupted : Bool

/-- `handleMessage`: forwards transcriptions, fires the turn-complete callback
on a remote turn-complete signal, schedules inbound audio (forcing a mute via
the turn-complete callback on the first byte while unmuted), and flushes all
playback on an interruption. `tNow` is `outputAudioContext.currentTime`. -/
def handleMessage (s : ServiceState) (msg : LiveServerMessage) (tNow : ℚ) :
    ServiceState × List Event :=
  let evA : List Event := match msg.inputTranscription with
    | some t => [Event.transcript t true false]
    | none => []
  let evB : List Event := match msg.outputTranscription with
    | some t => [Event.transcript t false false]
    | none => []
  let r1 : ServiceState × List Event :=
    if msg.turnComplete then (muteMic s, [Event.turnComplete]) else (s, [])
  let r2 : ServiceState × List Event :=
    match msg.audioData with
    | some chunk =>
        let ra : ServiceState × List Event :=
          if r1.1.isMicMuted then (r1.1, [])
          else (muteMic r1.1, [Event.turnComplete])
        if ra.1.playbackReady then
          let sb := if ra.1.nextStartTime < tNow
            then { ra.1 with nextStartTime := tNow } else ra.1
          match chunk.decoded with
          | some d =>
              ({ sb with activeSources := chunk.id :: sb.activeSources,
                         nextStartTime := sb.nextStartTime + d },
               ra.2 ++ [Event.startChunk chunk.id sb.nextStartTime])
          | none => (sb, ra.2 ++ [Event.log "Error decoding audio"])
        else (ra.1, ra.2)
    | none => (r1.1, [])
  let r3 : ServiceState × List Event :=
    if msg.interrupted then
      ({ r2.1 with activeSources := [], nextStartTime := 0 }, [])
    else (r2.1, [])
  (r3.1, evA ++ evB ++ r1.2 ++ r2.2 ++ r3.2)

/-- `handleError`: reports the error message upward, then calls `disconnect()`. -/
def handleError (s : ServiceState) (m : String) : ServiceState × List Event :=
  let r := disconnect s
  (r.1, Event.errorMsg m :: r.2)

/-- `handleClose`: logs and notifies `DISCONNECTED`; performs no teardown. -/
def handleClose (s : ServiceState) : ServiceState × List Event :=
  (s, [Event.log "Gemini Live Closed", Event.stateChange ConnectionState.DISCONNECTED])

/-- The `App` component's state that the service's callbacks drive. -/
structure AppState where
  conn : ConnectionState
  isMicOn : Bool
  volume : ℚ
  errorText : Option String

/-- How `App`'s registered callbacks react to one service event:
`onStateChange` stores the state and turns the mic indicator on at
`CONNECTED`; `onVolumeUpdate` stores the volume; `onError` stores the
message; `handleTurnComplete` clears the mic indicator and the volume. -/
def applyEvent (a : AppState) (e : Event) : AppState :=
  match e with
  | Event.stateChange cs =>
      { a with conn := cs,
               isMicOn := if cs = ConnectionState.CONNECTED then true else a.isMicOn }
  | Event.volumeUpdate v => { a with volume := v }
  | Event.errorMsg m => { a with errorText := some m }
  | Event.turnComplete => { a with isMicOn := false, volume := 0 }
  | _ => a

/-- The whole wired system: the `App` state plus the service state. -/
structure SysState where
  app : AppState
  svc : ServiceState

/-- External stimuli of one run of the wired system. -/
inductive Input
  | userConnect (now : ℤ) (micOk : Bool)
  | sessionOpened
  | block (rms : ℚ) (now : ℤ)
  | message (msg : LiveServerMessage) (tNow : ℚ)
  | transportError (m : String)
  | transportClose
  | userMute
  | userUnmute (now : ℤ)
  | userDisconnect

/-- Dispatch one input to the service. Capture blocks are delivered only while
the `onaudioprocess` callback is registered. -/
def svcStep (s : ServiceState) (i : Input) : ServiceState × List Event :=
  match i with
  | Input.userConnect now micOk => connect s now micOk
  | Input.sessionOpened => handleOpen s
  | Input.block rms now => if s.captureSession then onAudioProcess s rms now else (s, [])
  | Input.message msg tNow => handleMessage s msg tNow
  | Input.transportError m => handleError s m
  | Input.transportClose => handleClose s
  | Input.userMute => (muteMic s, [])
  | Input.userUnmute now => (unmuteMic s now, [])
  | Input.userDisconnect => disconnect s

/-- One step of the wired system: run the service, then fold the emitted
events into the `App` state. -/
def step (σ : SysState) (i : Input) : SysState × List Event :=
  let r := svcStep σ.svc i
  ({ app := r.2.foldl applyEvent σ.app, svc := r.1 }, r.2)

/-- Run the wired system over a list of inputs, accumulating the event trace. -/
def run (σ : SysState) (inputs : List Input) : SysState × List Event :=
  match inputs with
  | [] => (σ, [])
  | i :: rest =>
      let r := step σ i
      let rr := run r.1 rest
      (rr.1, r.2 ++ rr.2)

/-- Initial service state: no resources held, everything zeroed. -/
def initService : ServiceState :=
  { sessionOpen := false, micAcquired := false, playbackReady := false,
    captureSession := false, nextStartTime := 0, activeSources := [],
    isMicMuted := false, lastSpeechTime := 0, hasSpokenSinceLastTurn := false }

/-- Initial system state, as `App` first renders. -/
def initSys : SysState :=
  { app := { conn := ConnectionState.DISCONNECTED, isMicOn := false,
             volume := 0, errorText := none },
    svc := initService }

/-- Deliver a list of capture blocks (RMS, wall-clock time) to the service. -/
def runBlocks (s : ServiceState) (bs : List (ℚ × ℤ)) : ServiceState × List Event :=
  match bs with
  | [] => (s, [])
  | b :: rest =>
      let r := onAudioProcess s b.1 b.2
      let rr := runBlocks r.1 rest
      (rr.1, r.2 ++ rr.2)

/-- Number of turn-complete callback invocations in a trace. -/
def countTurnComplete : List Event → ℕ
  | [] => 0
  | Event.turnComplete :: rest => countTurnComplete rest + 1
  | _ :: rest => countTurnComplete rest

/-- Number of blocks transmitted to the session in a trace. -/
def countSend : List Event → ℕ
  | [] => 0
  | Event.send _ _ :: rest => countSend rest + 1
  | _ :: rest => countSend rest

/-- Whether a trace contains a user-visible error notification. -/
def hasUserError : List Event → Bool
  | [] => false
  | Event.errorMsg _ :: _ => true
  | _ :: rest => hasUserError rest

/-- Whether a trace contains a connection-state notification. -/
def hasStateEvent : List Event → Bool
  | [] => false
  | Event.stateChange _ :: _ => true
  | _ :: rest => hasStateEvent rest

/-- The scheduled (handle, start-time) pairs in a trace, in order. -/
def startTimes : List Event → List (ℕ × ℚ)
  | [] => []
  | Event.startChunk i t :: rest => (i, t) :: startTimes rest
  | _ :: rest => startTimes rest

/-- A message carrying only an inbound audio chunk. -/
def audioOnlyMsg (id : ℕ) (dec : Option ℚ) : LiveServerMessage :=
  { inputTranscription := none, outputTranscription := none,
    turnComplete := false, audioData := some { id := id, decoded := dec },
    interrupted := false }

/-- A message carrying only the remote turn-complete signal. -/
def turnCompleteMsg : LiveServerMessage :=
  { inputTranscription := none, outputTranscription := none,
    turnComplete := true, audioData := none, interrupted := false }

/-- A message carrying only the interruption signal. -/
def interruptOnlyMsg : LiveServerMessage :=
  { inputTranscription := none, outputTranscription := none,
    turnComplete := false, audioData := none, interrupted := true }

/-! Helper lemmas. -/

lemma onAudioProcess_muted (s : ServiceState) (rms : ℚ) (now : ℤ)
    (h : s.isMicMuted = true) :
    onAudioProcess s rms now = (s, [Event.volumeUpdate 0]) := by
  simp [onAudioProcess, h]

lemma countTurnComplete_append (a b : List Event) :
    countTurnComplete (a ++ b) = countTurnComplete a + countTurnComplete b := by
  induction a with
  | nil => simp [countTurnComplete]
  | cons e rest ih =>
      cases e <;> simp [countTurnComplete, ih]
      all_goals omega

lemma onAudioProcess_speech (s : ServiceState) (rms : ℚ) (now : ℤ)
    (h1 : s.isMicMuted = false) (h2 : SILENCE_THRESHOLD < rms) :
    onAudioProcess s rms now =
      ({ s with lastSpeechTime := now, hasSpokenSinceLastTurn := true },
       Event.volumeUpdate rms :: (if s.sessionOpen then [Event.send rms now] else [])) := by
  simp [onAudioProcess, h1, h2]

lemma onAudioProcess_silent_hold (s : ServiceState) (rms : ℚ) (now : ℤ)
    (h1 : s.isMicMuted = false) (h2 : ¬ SILENCE_THRESHOLD < rms)
    (h3 : ¬ (s.hasSpokenSinceLastTurn = true ∧ SILENCE_DURATION_MS < now - s.lastSpeechTime)) :
    onAudioProcess s rms now =
      (s, Event.volumeUpdate rms :: (if s.sessionOpen then [Event.send rms now] else [])) := by
  simp only [onAudioProcess, h1, Bool.false_eq_true, if_false, if_neg h2, if_neg h3]

lemma onAudioProcess_fire (s : ServiceState) (rms : ℚ) (now : ℤ)
    (h1 : s.isMicMuted = false) (h2 : ¬ SILENCE_THRESHOLD < rms)
    (h3 : s.hasSpokenSinceLastTurn = true)
    (h4 : SILENCE_DURATION_MS < now - s.lastSpeechTime) :
    onAudioProcess s rms now = (muteMic s, [Event.volumeUpdate rms, Event.turnComplete]) := by
  simp [onAudioProcess, h1, h2, h3, h4]

lemma runBlocks_muted (s : ServiceState) (bs : List (ℚ × ℤ)) (h : s.isMicMuted = true) :
    runBlocks s bs = (s, bs.map (fun _ => Event.volumeUpdate 0)) := by
  induction bs with
  | nil => simp [runBlocks]
  | cons b rest ih => simp [runBlocks, onAudioProcess_muted s b.1 b.2 h, ih]

lemma countTurnComplete_vol_send (rms : ℚ) (now : ℤ) (b : Bool) :
    countTurnComplete (Event.volumeUpdate rms :: (if b then [Event.send rms now] else [])) = 0 := by
  cases b <;> simp [countTurnComplete]

lemma countTurnComplete_vol_map (bs : List (ℚ × ℤ)) :
    countTurnComplete (bs.map (fun _ => Event.volumeUpdate 0)) = 0 := by
  induction bs with
  | nil => rfl
  | cons b rest ih =>
      rw [List.map_cons]
      simp only [countTurnComplete]
      exact ih

lemma runBlocks_append (s : ServiceState) (xs ys : List (ℚ × ℤ)) :
    runBlocks s (xs ++ ys) =
      ((runBlocks (runBlocks s xs).1 ys).1,
       (runBlocks s xs).2 ++ (runBlocks (runBlocks s xs).1 ys).2) := by
  induction xs generalizing s with
  | nil => simp [runBlocks]
  | cons x rest ih => simp [runBlocks, ih]

lemma countTurnComplete_vol_replicate (n : ℕ) :
    countTurnComplete (List.replicate n (Event.volumeUpdate 0)) = 0 := by
  induction n with
  | zero => rfl
  | succ n ih =>
      rw [List.replicate_succ]
      simp only [countTurnComplete]
      exact ih

lemma runBlocks_silent_hold (s : ServiceState) (pre : List (ℚ × ℤ))
    (h1 : s.isMicMuted = false)
    (hpre : ∀ b ∈ pre, ¬ SILENCE_THRESHOLD < b.1 ∧
        ¬ SILENCE_DURATION_MS < b.2 - s.lastSpeechTime) :
    (runBlocks s pre).1 = s ∧ countTurnComplete (runBlocks s pre).2 = 0 := by
  induction pre with
  | nil => simp [runBlocks, countTurnComplete]
  | cons b rest ih =>
      have hb := hpre b (List.mem_cons_self b rest)
      have hstep := onAudioProcess_silent_hold s b.1 b.2 h1 hb.1
        (fun hc => hb.2 hc.2)
      have ihr := ih (fun x hx => hpre x (List.mem_cons_of_mem b hx))
      constructor
      · simp [runBlocks, hstep, ihr.1]
      · cases hso : s.sessionOpen <;>
          simp [runBlocks, hstep, hso, countTurnComplete, countTurnComplete_append, ihr.2]

/-- C1 (amended): if the user speaks while unmuted and then only silent blocks
arrive, the first silent block strictly more than `SILENCE_DURATION_MS` after
the last speech fires the turn-complete event exactly once across the entire
run, the Mic Gate ends up muted, and no later block refires it without an
intervening unmute. -/
theorem C1_silence_end_of_turn (s : ServiceState) (rms0 : ℚ) (t0 : ℤ)
    (pre : List (ℚ × ℤ)) (f : ℚ × ℤ) (post : List (ℚ × ℤ))
    (hunmuted : s.isMicMuted = false)
    (hspeech : SILENCE_THRESHOLD < rms0)
    (hpre : ∀ b ∈ pre, b.1 ≤ SILENCE_THRESHOLD ∧ b.2 - t0 ≤ SILENCE_DURATION_MS)
    (hf1 : f.1 ≤ SILENCE_THRESHOLD) (hf2 : SILENCE_DURATION_MS < f.2 - t0) :
    countTurnComplete (runBlocks s ((rms0, t0) :: (pre ++ f :: post))).2 = 1 ∧
    (runBlocks s ((rms0, t0) :: (pre ++ f :: post))).1.isMicMuted = true := by
  have hstep0 := onAudioProcess_speech s rms0 t0 hunmuted hspeech
  set s1 : ServiceState := { s with lastSpeechTime := t0, hasSpokenSinceLastTurn := true }
  have hs1m : s1.isMicMuted = false := hunmuted
  have hps : (runBlocks s1 pre).1 = s1 ∧ countTurnComplete (runBlocks s1 pre).2 = 0 :=
    runBlocks_silent_hold s1 pre hs1m
      (fun b hb => ⟨not_lt.mpr (hpre b hb).1, not_lt.mpr (hpre b hb).2⟩)
  have hfire := onAudioProcess_fire s1 f.1 f.2 hs1m (not_lt.mpr hf1) rfl hf2
  have hpost := runBlocks_muted (muteMic s1) post rfl
  have etail : runBlocks s1 (pre ++ f :: post) =
      ((runBlocks (runBlocks s1 pre).1 (f :: post)).1,
       (runBlocks s1 pre).2 ++ (runBlocks (runBlocks s1 pre).1 (f :: post)).2) :=
    runBlocks_append s1 pre (f :: post)
  have efp : runBlocks s1 (f :: post) =
      (muteMic s1, [Event.volumeUpdate f.1, Event.turnComplete] ++
        post.map (fun _ => Event.volumeUpdate 0)) := by
    simp [runBlocks, hfire, hpost]
  have e0s : (runBlocks s ((rms0, t0) :: (pre ++ f :: post))).1
      = (runBlocks s1 (pre ++ f :: post)).1 := by
    simp [runBlocks, hstep0]
  have e0c : countTurnComplete (runBlocks s ((rms0, t0) :: (pre ++ f :: post))).2
      = countTurnComplete (runBlocks s1 (pre ++ f :: post)).2 := by
    cases hso : s.sessionOpen <;>
      simp [runBlocks, hstep0, hso, countTurnComplete, countTurnComplete_append]
  have e1s : (runBlocks s1 (pre ++ f :: post)).1 = (runBlocks s1 (f :: post)).1 := by
    rw [etail, hps.1]
  have e1c : countTurnComplete (runBlocks s1 (pre ++ f :: post)).2
      = countTurnComplete (runBlocks s1 (f :: post)).2 := by
    rw [etail]
    dsimp only
    rw [countTurnComplete_append, hps.1, hps.2, Nat.zero_add]
  have e2c : countTurnComplete (runBlocks s1 (f :: post)).2 = 1 := by
    rw [efp]
    dsimp only
    rw [countTurnComplete_append]
    simp [countTurnComplete, countTurnComplete_vol_map, countTurnComplete_vol_replicate]
  have e2s : (runBlocks s1 (f :: post)).1 = muteMic s1 := congrArg Prod.fst efp
  refine ⟨?_, ?_⟩
  · rw [e0c, e1c, e2c]
  · rw [e0s, e1s, e2s]
    rfl

/-- C1 counterexample: with the user having spoken and then exactly
`SILENCE_DURATION_MS` of silence elapsed when the next block arrives, the
strict comparison `now - lastSpeechTime > 2500` is false, so no turn-complete
fires at all — the claim's "falls silent for exactly SILENCE_DURATION" run
produces zero events, not one. -/
theorem C1_cex :
    initService.isMicMuted = false ∧
    SILENCE_THRESHOLD < (1 : ℚ) ∧
    ((3500 : ℤ) - 1000 = SILENCE_DURATION_MS) ∧
    countTurnComplete (runBlocks initService [(1, 1000), (0, 3500)]).2 = 0 := by
  refine ⟨rfl, by norm_num [SILENCE_THRESHOLD], by decide, ?_⟩
  with_unfolding_all rfl

/-- C1 witness: speech at t=0, quiet blocks at 1000 and 2600 and 2900 ms; the
block at 2600 ms fires the single turn-complete and the run ends muted. -/
theorem C1_witness :
    countTurnComplete
      (runBlocks initService ((1, 0) :: ([(0, 1000)] ++ (0, 2600) :: [(0, 2900)]))).2 = 1 ∧
    (runBlocks initService ((1, 0) :: ([(0, 1000)] ++ (0, 2600) :: [(0, 2900)]))).1.isMicMuted
      = true :=
  C1_silence_end_of_turn initService 1 0 [(0, 1000)] (0, 2600) [(0, 2900)] rfl
    (by norm_num [SILENCE_THRESHOLD])
    (by
      intro b hb
      simp only [List.mem_singleton] at hb
      subst hb
      exact ⟨by norm_num [SILENCE_THRESHOLD], by decide⟩)
    (by norm_num [SILENCE_THRESHOLD]) (by decide)

/-! Claim theorems. -/

lemma ite_lt_eq_max (a b : ℚ) : (if a < b then b else a) = max a b := by
  rcases le_or_lt b a with h | h
  · rw [if_neg (not_lt.mpr h), max_eq_left h]
  · rw [if_pos h, max_eq_right h.le]

lemma handleMessage_schedule (s : ServiceState) (id : ℕ) (d : ℚ) (tNow : ℚ)
    (hp : s.playbackReady = true) :
    (handleMessage s (audioOnlyMsg id (some d)) tNow).1.nextStartTime
        = max s.nextStartTime tNow + d ∧
    startTimes (handleMessage s (audioOnlyMsg id (some d)) tNow).2
        = [(id, max s.nextStartTime tNow)] ∧
    (handleMessage s (audioOnlyMsg id (some d)) tNow).1.activeSources
        = id :: s.activeSources ∧
    (handleMessage s (audioOnlyMsg id (some d)) tNow).1.playbackReady = true := by
  cases hm : s.isMicMuted <;>
    simp [handleMessage, audioOnlyMsg, startTimes, muteMic, hp, hm,
      apply_ite ServiceState.nextStartTime, apply_ite ServiceState.activeSources,
      apply_ite ServiceState.playbackReady, ite_lt_eq_max]

lemma onAudioProcess_captureSession (s : ServiceState) (rms : ℚ) (now : ℤ) :
    (onAudioProcess s rms now).1.captureSession = s.captureSession := by
  unfold onAudioProcess muteMic
  repeat' split
  all_goals rfl

/-- C2 (amended): on a transport error the service reports the error message
upward and then performs a full teardown of session, capture and playback,
ending with a `DISCONNECTED` notification (not `ERROR`); on a transport close
it merely logs and notifies `DISCONNECTED`, tearing nothing down. -/
theorem C2_transport_error_close (s : ServiceState) (m : String) :
    handleError s m =
      ({ s with sessionOpen := false, captureSession := false, activeSources := [],
                micAcquired := false, playbackReady := false },
       [Event.errorMsg m, Event.stateChange ConnectionState.DISCONNECTED]) ∧
    handleClose s =
      (s, [Event.log "Gemini Live Closed",
           Event.stateChange ConnectionState.DISCONNECTED]) :=
  ⟨rfl, rfl⟩

/-- C2 counterexample: in a run that connects, opens, and then receives a
transport error, the final connection state is `DISCONNECTED`, never `ERROR`;
and after a transport close both the capture session and the remote session
are still held (no teardown). This contradicts the claim that a transport
error leads to `Errored` and that a close performs a full teardown. -/
theorem C2_cex :
    (run initSys [Input.userConnect 0 true, Input.sessionOpened,
        Input.transportError "boom"]).1.app.conn = ConnectionState.DISCONNECTED ∧
    ConnectionState.DISCONNECTED ≠ ConnectionState.ERROR ∧
    (run initSys [Input.userConnect 0 true, Input.sessionOpened,
        Input.transportClose]).1.svc.captureSession = true ∧
    (run initSys [Input.userConnect 0 true, Input.sessionOpened,
        Input.transportClose]).1.svc.sessionOpen = true ∧
    (run initSys [Input.userConnect 0 true, Input.sessionOpened,
        Input.transportClose]).1.app.conn = ConnectionState.DISCONNECTED := by
  refine ⟨rfl, by decide, rfl, rfl, rfl⟩

/-- C3 (confirmed): while the Mic Gate is muted, every delivered capture block
produces exactly one volume-update callback reporting exactly 0, no block is
sent to the session, and the service state — in particular `lastSpeechTime`
and `hasSpokenSinceLastTurn` and the capture session itself — is left
untouched, on every block until unmuted. -/
theorem C3_muted_blocks (s : ServiceState) (bs : List (ℚ × ℤ))
    (h : s.isMicMuted = true) :
    runBlocks s bs = (s, bs.map (fun _ => Event.volumeUpdate 0)) := by
  induction bs with
  | nil => simp [runBlocks]
  | cons b rest ih => simp [runBlocks, onAudioProcess_muted s b.1 b.2 h, ih]

/-- C3 witness: two concrete blocks delivered to a muted service yield exactly
one zero volume report each, no sends, and an unchanged state. -/
theorem C3_witness :
    ({ initService with isMicMuted := true } : ServiceState).isMicMuted = true ∧
    runBlocks { initService with isMicMuted := true } [(1/2, 100), (0, 200)]
      = ({ initService with isMicMuted := true },
         [Event.volumeUpdate 0, Event.volumeUpdate 0]) :=
  ⟨rfl, C3_muted_blocks { initService with isMicMuted := true } [(1/2, 100), (0, 200)] rfl⟩

/-- C5 (confirmed): handling any message carrying the interruption signal
leaves the Active Playback Set empty and the playback cursor at 0, whatever
was pending or playing. -/
theorem C5_interrupt_flush (s : ServiceState) (msg : LiveServerMessage) (tNow : ℚ)
    (h : msg.interrupted = true) :
    (handleMessage s msg tNow).1.activeSources = [] ∧
    (handleMessage s msg tNow).1.nextStartTime = 0 := by
  constructor <;> simp [handleMessage, h]

/-- C5 witness: interrupting a service with three active sources and a
nonzero cursor empties the set and zeroes the cursor. -/
theorem C5_witness :
    interruptOnlyMsg.interrupted = true ∧
    (handleMessage { initService with activeSources := [1, 2, 3], nextStartTime := 9 }
        interruptOnlyMsg 4).1.activeSources = [] ∧
    (handleMessage { initService with activeSources := [1, 2, 3], nextStartTime := 9 }
        interruptOnlyMsg 4).1.nextStartTime = 0 :=
  ⟨rfl,
   (C5_interrupt_flush { initService with activeSources := [1, 2, 3], nextStartTime := 9 }
      interruptOnlyMsg 4 rfl).1,
   (C5_interrupt_flush { initService with activeSources := [1, 2, 3], nextStartTime := 9 }
      interruptOnlyMsg 4 rfl).2⟩

/-- C9 (confirmed): every call to `connect()` emits the `CONNECTING`
notification first, and — before any resource acquisition, via
`connectReset` — zeroes the playback cursor, unmutes the Mic Gate, stamps
`lastSpeechTime` with the current time and clears `hasSpokenSinceLastTurn`;
these resets survive to the post-state whether or not acquisition succeeds,
so a reconnection never inherits mute state or cursor position. -/
theorem C9_connect_resets (s : ServiceState) (now : ℤ) (micOk : Bool) :
    (connect s now micOk).2.head? = some (Event.stateChange ConnectionState.CONNECTING) ∧
    connectReset s now = { s with nextStartTime := 0, isMicMuted := false,
                                  lastSpeechTime := now, hasSpokenSinceLastTurn := false } ∧
    (connect s now micOk).1.nextStartTime = 0 ∧
    (connect s now micOk).1.isMicMuted = false ∧
    (connect s now micOk).1.lastSpeechTime = now ∧
    (connect s now micOk).1.hasSpokenSinceLastTurn = false := by
  cases micOk <;> simp [connect, connectReset, disconnect]

/-- C10 (confirmed): the capture block whose arrival fires the
silence-timeout turn-complete event has its volume update delivered, fires
the event, mutes the gate, and is itself never sent to the session:
processing stops right after the event. -/
theorem C10_trigger_block_not_sent (s : ServiceState) (rms : ℚ) (now : ℤ)
    (h1 : s.isMicMuted = false) (h2 : rms ≤ SILENCE_THRESHOLD)
    (h3 : s.hasSpokenSinceLastTurn = true)
    (h4 : SILENCE_DURATION_MS < now - s.lastSpeechTime) :
    onAudioProcess s rms now = (muteMic s, [Event.volumeUpdate rms, Event.turnComplete]) := by
  have h2' : ¬ SILENCE_THRESHOLD < rms := not_lt.mpr h2
  simp [onAudioProcess, h1, h2', h3, h4]

/-- C10 witness: a silent block arriving 3000 ms after the last speech on an
unmuted, spoken-this-turn state fires the event and is not transmitted, while
its volume update is still delivered. -/
theorem C10_witness :
    ({ initService with hasSpokenSinceLastTurn := true, sessionOpen := true } :
        ServiceState).isMicMuted = false ∧
    onAudioProcess { initService with hasSpokenSinceLastTurn := true, sessionOpen := true } 0 3000
      = (muteMic { initService with hasSpokenSinceLastTurn := true, sessionOpen := true },
         [Event.volumeUpdate 0, Event.turnComplete]) :=
  ⟨rfl,
   C10_trigger_block_not_sent
     { initService with hasSpokenSinceLastTurn := true, sessionOpen := true } 0 3000
     rfl (of_decide_eq_true (by with_unfolding_all rfl)) rfl (by decide)⟩

/-- C4 (confirmed): scheduling three decoded chunks back-to-back (each arriving
before the previously scheduled audio runs out, no interruption) starts them at
the cursor, at cursor + d1, and at cursor + d1 + d2 — i.e. at offsets 0, d1,
d1 + d2 from the first start — where the first start is the cursor caught up
to the playback clock; each handle joins the Active Playback Set and the
cursor never decreases. -/
theorem C4_backtoback_schedule (s : ServiceState) (t1 t2 t3 d1 d2 d3 : ℚ)
    (hp : s.playbackReady = true) (hd1 : 0 ≤ d1) (hd2 : 0 ≤ d2) (hd3 : 0 ≤ d3)
    (h2 : t2 ≤ max s.nextStartTime t1 + d1)
    (h3 : t3 ≤ max s.nextStartTime t1 + d1 + d2) :
    startTimes (handleMessage s (audioOnlyMsg 1 (some d1)) t1).2
      = [(1, max s.nextStartTime t1)] ∧
    startTimes (handleMessage (handleMessage s (audioOnlyMsg 1 (some d1)) t1).1
        (audioOnlyMsg 2 (some d2)) t2).2
      = [(2, max s.nextStartTime t1 + d1)] ∧
    startTimes (handleMessage (handleMessage (handleMessage s (audioOnlyMsg 1 (some d1)) t1).1
        (audioOnlyMsg 2 (some d2)) t2).1 (audioOnlyMsg 3 (some d3)) t3).2
      = [(3, max s.nextStartTime t1 + d1 + d2)] ∧
    (1 : ℕ) ∈ (handleMessage s (audioOnlyMsg 1 (some d1)) t1).1.activeSources ∧
    (2 : ℕ) ∈ (handleMessage (handleMessage s (audioOnlyMsg 1 (some d1)) t1).1
        (audioOnlyMsg 2 (some d2)) t2).1.activeSources ∧
    (3 : ℕ) ∈ (handleMessage (handleMessage (handleMessage s (audioOnlyMsg 1 (some d1)) t1).1
        (audioOnlyMsg 2 (some d2)) t2).1 (audioOnlyMsg 3 (some d3)) t3).1.activeSources ∧
    s.nextStartTime ≤ (handleMessage s (audioOnlyMsg 1 (some d1)) t1).1.nextStartTime ∧
    (handleMessage s (audioOnlyMsg 1 (some d1)) t1).1.nextStartTime
      ≤ (handleMessage (handleMessage s (audioOnlyMsg 1 (some d1)) t1).1
          (audioOnlyMsg 2 (some d2)) t2).1.nextStartTime ∧
    (handleMessage (handleMessage s (audioOnlyMsg 1 (some d1)) t1).1
        (audioOnlyMsg 2 (some d2)) t2).1.nextStartTime
      ≤ (handleMessage (handleMessage (handleMessage s (audioOnlyMsg 1 (some d1)) t1).1
          (audioOnlyMsg 2 (some d2)) t2).1 (audioOnlyMsg 3 (some d3)) t3).1.nextStartTime := by
  obtain ⟨e1n, e1s, e1a, e1p⟩ := handleMessage_schedule s 1 d1 t1 hp
  set sA := (handleMessage s (audioOnlyMsg 1 (some d1)) t1).1
  obtain ⟨e2n, e2s, e2a, e2p⟩ := handleMessage_schedule sA 2 d2 t2 e1p
  set sB := (handleMessage sA (audioOnlyMsg 2 (some d2)) t2).1
  obtain ⟨e3n, e3s, e3a, e3p⟩ := handleMessage_schedule sB 3 d3 t3 e2p
  have m2 : max sA.nextStartTime t2 = sA.nextStartTime := by
    apply max_eq_left
    rw [e1n]
    exact h2
  have m3 : max sB.nextStartTime t3 = sB.nextStartTime := by
    apply max_eq_left
    rw [e2n, m2, e1n]
    exact h3
  refine ⟨e1s, ?_, ?_, ?_, ?_, ?_, ?_, ?_, ?_⟩
  · rw [e2s, m2, e1n]
  · rw [e3s, m3, e2n, m2, e1n]
  · rw [e1a]
    exact List.mem_cons_self 1 s.activeSources
  · rw [e2a]
    exact List.mem_cons_self 2 sA.activeSources
  · rw [e3a]
    exact List.mem_cons_self 3 sB.activeSources
  · rw [e1n]
    exact (le_max_left _ _).trans (le_add_of_nonneg_right hd1)
  · rw [e2n, m2]
    exact le_add_of_nonneg_right hd2
  · rw [e3n, m3]
    exact le_add_of_nonneg_right hd3

/-- C4 witness: two one-second chunks at playback-clock times 0 and 1 start at
the cursor and at cursor + 1 respectively. -/
theorem C4_witness :
    ({ initService with playbackReady := true } : ServiceState).playbackReady = true ∧
    startTimes (handleMessage { initService with playbackReady := true }
        (audioOnlyMsg 1 (some 1)) 0).2 = [(1, max (0 : ℚ) 0)] ∧
    startTimes (handleMessage (handleMessage { initService with playbackReady := true }
        (audioOnlyMsg 1 (some 1)) 0).1 (audioOnlyMsg 2 (some 1)) 1).2
      = [(2, max (0 : ℚ) 0 + 1)] := by
  refine ⟨rfl, ?_, ?_⟩
  · exact (C4_backtoback_schedule { initService with playbackReady := true } 0 1 2 1 1 1 rfl
      (by norm_num) (by norm_num) (by norm_num) (by norm_num [initService])
      (by norm_num [initService])).1
  · exact (C4_backtoback_schedule { initService with playbackReady := true } 0 1 2 1 1 1 rfl
      (by norm_num) (by norm_num) (by norm_num) (by norm_num [initService])
      (by norm_num [initService])).2.1

/-- C6 (amended): the remote turn-complete signal and the first audio byte of
a message both invoke the same forced-mute turn-complete callback, but only
the audio path is guarded by the mute flag: per message the callback fires
once for a turn-complete signal unconditionally, and once for audio only when
the gate is unmuted and no turn-complete signal preceded it in the same
message; across a remote turn made of audio followed by a turn-complete
signal it therefore fires twice, not at most once. -/
theorem C6_forced_mute_triggers (s : ServiceState) (msg : LiveServerMessage) (tNow : ℚ) :
    countTurnComplete (handleMessage s msg tNow).2 =
      (if msg.turnComplete = true then 1 else 0) +
      (if msg.audioData.isSome = true ∧ s.isMicMuted = false ∧ msg.turnComplete = false
       then 1 else 0) := by
  obtain ⟨it, ot, tc, ad, ir⟩ := msg
  rcases ad with _ | ⟨cid, cdec⟩
  · cases it <;> cases ot <;> cases tc <;> cases ir <;> cases hm : s.isMicMuted <;>
      simp [handleMessage, countTurnComplete, countTurnComplete_append, muteMic, hm]
  · rcases cdec with _ | d <;>
      cases hpr : s.playbackReady <;>
      cases it <;> cases ot <;> cases tc <;> cases ir <;> cases hm : s.isMicMuted <;>
      simp [handleMessage, countTurnComplete, countTurnComplete_append, muteMic, hm, hpr]

/-- C6 counterexample: one remote turn delivered as an audio message followed
by a turn-complete message, starting unmuted and connected, fires the
forced-mute side effect twice — the turn-complete branch is not guarded by
the mute flag, so the effect is not "at most once per remote turn". -/
theorem C6_cex :
    countTurnComplete
      (run initSys [Input.userConnect 0 true, Input.sessionOpened,
        Input.message (audioOnlyMsg 7 (some 1)) 0,
        Input.message turnCompleteMsg 0]).2 = 2 := by
  with_unfolding_all rfl

/-- C7 (amended): a chunk whose decode fails is skipped: nothing is scheduled,
the Active Playback Set is untouched, no user-visible error or state change is
emitted, only a log entry; the cursor is not advanced by the chunk's duration
and not reset — but the pre-decode catch-up may still raise it to the current
playback-clock time. -/
theorem C7_decode_failure (s : ServiceState) (id : ℕ) (tNow : ℚ)
    (hp : s.playbackReady = true) :
    (handleMessage s (audioOnlyMsg id none) tNow).1.activeSources = s.activeSources ∧
    (handleMessage s (audioOnlyMsg id none) tNow).1.nextStartTime = max s.nextStartTime tNow ∧
    startTimes (handleMessage s (audioOnlyMsg id none) tNow).2 = [] ∧
    hasUserError (handleMessage s (audioOnlyMsg id none) tNow).2 = false ∧
    hasStateEvent (handleMessage s (audioOnlyMsg id none) tNow).2 = false ∧
    Event.log "Error decoding audio" ∈ (handleMessage s (audioOnlyMsg id none) tNow).2 := by
  cases hm : s.isMicMuted <;>
    simp [handleMessage, audioOnlyMsg, muteMic, hp, hm, startTimes, hasUserError,
      hasStateEvent, apply_ite ServiceState.nextStartTime,
      apply_ite ServiceState.activeSources, ite_lt_eq_max]

/-- C7 counterexample: a failed chunk arriving while the cursor (0) lags the
playback clock (5) moves the cursor to 5 — the failed chunk's handling does
change the cursor, contradicting "neither advanced nor reset by the failed
chunk". -/
theorem C7_cex :
    ({ initService with playbackReady := true, isMicMuted := true } :
        ServiceState).nextStartTime = 0 ∧
    (handleMessage { initService with playbackReady := true, isMicMuted := true }
        (audioOnlyMsg 7 none) 5).1.nextStartTime = 5 := by
  constructor
  · rfl
  · with_unfolding_all rfl

/-- C7 witness: the amended failure policy at a concrete muted, ready state. -/
theorem C7_witness :
    ({ initService with playbackReady := true } : ServiceState).playbackReady = true ∧
    ((handleMessage { initService with playbackReady := true }
        (audioOnlyMsg 7 none) 5).1.activeSources
      = ({ initService with playbackReady := true } : ServiceState).activeSources ∧
    (handleMessage { initService with playbackReady := true }
        (audioOnlyMsg 7 none) 5).1.nextStartTime
      = max ({ initService with playbackReady := true } : ServiceState).nextStartTime 5 ∧
    startTimes (handleMessage { initService with playbackReady := true }
        (audioOnlyMsg 7 none) 5).2 = [] ∧
    hasUserError (handleMessage { initService with playbackReady := true }
        (audioOnlyMsg 7 none) 5).2 = false ∧
    hasStateEvent (handleMessage { initService with playbackReady := true }
        (audioOnlyMsg 7 none) 5).2 = false ∧
    Event.log "Error decoding audio" ∈ (handleMessage { initService with playbackReady := true }
        (audioOnlyMsg 7 none) 5).2) :=
  ⟨rfl, C7_decode_failure { initService with playbackReady := true } 7 5 rfl⟩

/-- C8 (amended): the Capture Session's lifecycle is independent of the Mic
Gate: explicit mute and unmute leave it untouched (muting only gates per-block
processing), per-block processing never tears it down, it is created when the
session opens provided the microphone was acquired, and it is torn down only
by `disconnect()` — directly or via a transport error. -/
theorem C8_capture_lifecycle (σ : SysState) (now : ℤ) (rms : ℚ) (t : ℤ) (m : String) :
    (step σ Input.userMute).1.svc.captureSession = σ.svc.captureSession ∧
    (step σ (Input.userUnmute now)).1.svc.captureSession = σ.svc.captureSession ∧
    (step σ Input.userDisconnect).1.svc.captureSession = false ∧
    (step σ (Input.transportError m)).1.svc.captureSession = false ∧
    (step σ Input.sessionOpened).1.svc.captureSession
        = (σ.svc.micAcquired || σ.svc.captureSession) ∧
    (step σ (Input.block rms t)).1.svc.captureSession = σ.svc.captureSession := by
  refine ⟨rfl, rfl, rfl, rfl, ?_, ?_⟩
  · cases hmica : σ.svc.micAcquired <;>
      simp [step, svcStep, handleOpen, startAudioStreaming, hmica]
  · cases hcs : σ.svc.captureSession <;>
      simp [step, svcStep, hcs, onAudioProcess_captureSession]

/-- C8 counterexample: the reachable state after connect, open, and an
explicit mute is `CONNECTED` with the Mic Gate muted while the Capture
Session still exists — contradicting "Capture Session exists iff Connected
and unmuted" and "torn down on mute". -/
theorem C8_cex :
    (run initSys [Input.userConnect 0 true, Input.sessionOpened,
        Input.userMute]).1.app.conn = ConnectionState.CONNECTED ∧
    (run initSys [Input.userConnect 0 true, Input.sessionOpened,
        Input.userMute]).1.svc.isMicMuted = true ∧
    (run initSys [Input.userConnect 0 true, Input.sessionOpened,
        Input.userMute]).1.svc.captureSession = true :=
  ⟨rfl, rfl, rfl⟩

end Voicebot
